import Mathlib

/-!
Verification development for the retail chat assistant in `chatbot.py`.

The program manipulates Python dictionaries with dynamic values, so the
embedding starts from a `Value` type mirroring the JSON-like universe the
program uses (None, bool, numbers, strings, lists, dicts).  Numbers are
modelled as rationals: the program only ever handles integer and decimal
literals and compares/sums them, which rational arithmetic reproduces
exactly.  External effects are made explicit:

* the Groq classifier / generator calls become `Option`-valued oracle
  parameters (`Option Dict` / `Option String`; `none` models a failed or
  malformed call, which the program catches);
* `datetime.now()` becomes an explicit clock parameter;
* the JSON files behind `load_json` / `save_json` become a `Stores` value
  threaded through the pipeline, with a boolean oracle for the success of
  `save_json` (the program catches write failures and returns `False`);
* a Python exception that would escape a node is modelled with
  `Except String`.
-/

set_option maxHeartbeats 1600000
set_option maxRecDepth 8000

/-- Python-style dynamic value (the universe of entity maps, records and
context values in `chatbot.py`). -/
inductive Value where
  | none
  | bool (b : Bool)
  | num (q : Rat)
  | str (s : String)
  | list (l : List Value)
  | dict (d : List (String × Value))

mutual
/-- Structural equality test on values, mirroring Python `==` on the scalar
values the program actually compares (ids, categories, statuses).  Python
dict equality ignores key order; the dictionaries the program compares are
never reordered, so ordered equality agrees on every reachable comparison. -/
def Value.beq : Value → Value → Bool
  | .none, .none => true
  | .bool a, .bool b => a == b
  | .num a, .num b => a == b
  | .str a, .str b => a == b
  | .list a, .list b => Value.beqList a b
  | .dict a, .dict b => Value.beqDict a b
  | _, _ => false
def Value.beqList : List Value → List Value → Bool
  | [], [] => true
  | a :: as, b :: bs => Value.beq a b && Value.beqList as bs
  | _, _ => false
def Value.beqDict : List (String × Value) → List (String × Value) → Bool
  | [], [] => true
  | (k1, v1) :: as, (k2, v2) :: bs => k1 == k2 && Value.beq v1 v2 && Value.beqDict as bs
  | _, _ => false
end

mutual
theorem Value.eq_of_beq : ∀ {a b : Value}, Value.beq a b = true → a = b
  | .none, .none, _ => rfl
  | .bool a, .bool b, h => by simpa [Value.beq] using h
  | .num a, .num b, h => by
      simp only [Value.beq, beq_iff_eq] at h; exact congrArg Value.num h
  | .str a, .str b, h => by
      simp only [Value.beq, beq_iff_eq] at h; exact congrArg Value.str h
  | .list a, .list b, h => congrArg Value.list (Value.eqList_of_beqList h)
  | .dict a, .dict b, h => congrArg Value.dict (Value.eqDict_of_beqDict h)
theorem Value.eqList_of_beqList : ∀ {a b : List Value}, Value.beqList a b = true → a = b
  | [], [], _ => rfl
  | a :: as, b :: bs, h => by
      simp only [Value.beqList, Bool.and_eq_true] at h
      exact congrArg₂ List.cons (Value.eq_of_beq h.1) (Value.eqList_of_beqList h.2)
theorem Value.eqDict_of_beqDict : ∀ {a b : List (String × Value)}, Value.beqDict a b = true → a = b
  | [], [], _ => rfl
  | (k1, v1) :: as, (k2, v2) :: bs, h => by
      simp only [Value.beqDict, Bool.and_eq_true, beq_iff_eq] at h
      have hk : k1 = k2 := h.1.1
      have hv : v1 = v2 := Value.eq_of_beq h.1.2
      have ht : as = bs := Value.eqDict_of_beqDict h.2
      rw [hk, hv, ht]
end

mutual
theorem Value.beq_refl : ∀ (a : Value), Value.beq a a = true
  | .none => rfl
  | .bool a => by simp [Value.beq]
  | .num a => by simp [Value.beq]
  | .str a => by simp [Value.beq]
  | .list a => Value.beqList_refl a
  | .dict a => Value.beqDict_refl a
theorem Value.beqList_refl : ∀ (a : List Value), Value.beqList a a = true
  | [] => rfl
  | a :: as => by
      simp only [Value.beqList, Bool.and_eq_true]
      exact ⟨Value.beq_refl a, Value.beqList_refl as⟩
theorem Value.beqDict_refl : ∀ (a : List (String × Value)), Value.beqDict a a = true
  | [] => rfl
  | (k, v) :: as => by
      simp only [Value.beqDict, Bool.and_eq_true, beq_self_eq_true]
      exact ⟨⟨trivial, Value.beq_refl v⟩, Value.beqDict_refl as⟩
end

instance : BEq Value := ⟨Value.beq⟩

instance : DecidableEq Value := fun a b =>
  decidable_of_iff (Value.beq a b = true)
    ⟨Value.eq_of_beq, fun h => h ▸ Value.beq_refl a⟩

/-- A Python dictionary with string keys (insertion-ordered, as in Python). -/
abbrev Dict := List (String × Value)

/-- `d.get(k)` when the key may be absent: `Option`-valued lookup. -/
def dget (d : Dict) (k : String) : Option Value :=
  (d.find? (fun p => p.1 == k)).map (·.2)

/-- `d.get(k, default)`. -/
def dgetD (d : Dict) (k : String) (v : Value) : Value :=
  (dget d k).getD v

/-- `d.get(k)`: Python returns `None` both for an absent key and for a key
stored as `None`; this collapse is exactly what the program relies on. -/
def pyGet (d : Dict) (k : String) : Value :=
  dgetD d k .none

/-- `d[k] = v`: replace in place when the key exists, else append (Python
dict insertion-order semantics). -/
def dset (d : Dict) (k : String) (v : Value) : Dict :=
  if d.any (fun p => p.1 == k) then
    d.map (fun p => if p.1 == k then (k, v) else p)
  else d ++ [(k, v)]

/-- `d.update(other)`. -/
def dictUpdate (d other : Dict) : Dict :=
  other.foldl (fun acc p => dset acc p.1 p.2) d

/-- `k in d` for a dictionary. -/
def hasKey (d : Dict) (k : String) : Bool :=
  d.any (fun p => p.1 == k)

/-- Python truthiness of a value. -/
def truthy : Value → Bool
  | .none => false
  | .bool b => b
  | .num q => q != 0
  | .str s => s != ""
  | .list l => !l.isEmpty
  | .dict d => !d.isEmpty

/-- `entities.get(k)` where `entities` is dynamically typed.  The program
only reaches these reads with a dict (a non-dict would raise in Python and
be caught by the turn engine); a non-dict is mapped to `None`. -/
def eget (e : Value) (k : String) : Value :=
  match e with
  | .dict d => pyGet d k
  | _ => .none

/-- `entities.get(k, default)` under the same convention as `eget`. -/
def egetD (e : Value) (k : String) (v : Value) : Value :=
  match e with
  | .dict d => dgetD d k v
  | _ => v

/-- `k in entities` under the same convention as `eget`. -/
def ehasKey (e : Value) (k : String) : Bool :=
  match e with
  | .dict d => hasKey d k
  | _ => false

/-- `v in [s1, s2, ...]` for a list of string literals: only an equal
string is a member (Python equality never identifies a non-string with a
string here). -/
def vIn (v : Value) (l : List String) : Bool :=
  match v with
  | .str s => l.contains s
  | _ => false

/-- Substring search on characters: `needle <:+: hay`. -/
def subChars (needle : List Char) : List Char → Bool
  | [] => needle.isEmpty
  | c :: t => needle.isPrefixOf (c :: t) || subChars needle t

/-- `s.lower()` as a character list (ASCII case folding, which covers every
keyword the program tests). -/
def pyLower (s : String) : List Char :=
  s.data.map Char.toLower

/-- `s.lower()` as a string. -/
def pyLowerS (s : String) : String :=
  ⟨pyLower s⟩

/-- `needle in hay.lower()`: the Python membership test used throughout the
keyword checks (`needle` is always written in lowercase in the source). -/
def containsSub (hay needle : String) : Bool :=
  subChars needle.data (pyLower hay)

/-- `any(word in text.lower() for word in words)`. -/
def lowerContainsAny (text : String) (words : List String) : Bool :=
  words.any (fun w => containsSub text w)

/-- Coercion to a rational with a default, for the arithmetic reads
(`.get("total", 0)` and friends).  A truthy non-number would raise in
Python; the stores and entities the claims quantify over keep these fields
numeric, and the default stands in elsewhere. -/
def asNumD (v : Value) (d : Rat) : Rat :=
  match v with
  | .num q => q
  | _ => d

/-- Coercion to a string with a default (`.lower()` targets etc.). -/
def asStrD (v : Value) (d : String) : String :=
  match v with
  | .str s => s
  | _ => d

/-- `int(x)` truncation for the list-slice / star-repetition uses. -/
def asNatD (v : Value) (d : Nat) : Nat :=
  match v with
  | .num q => q.floor.toNat
  | _ => d

/-- Decimal rendering of a rational: integers print without a point,
decimal fractions with their digits (the only numbers the program prints). -/
def ratRepr (q : Rat) : String :=
  if q.den = 1 then toString q.num
  else
    let k := if (q * 10).den = 1 then 1 else if (q * 100).den = 1 then 2
      else if (q * 1000).den = 1 then 3 else if (q * 10000).den = 1 then 4
      else if (q * 100000).den = 1 then 5 else 6
    let scaled : Int := (q * ((10 : Rat) ^ k)).floor
    let sign := if scaled < 0 then "-" else ""
    let a := scaled.natAbs
    let ip := a / (10 ^ k)
    let fp := a % (10 ^ k)
    let fs := toString fp
    let pad := String.mk (List.replicate (k - fs.length) '0')
    sign ++ toString ip ++ "." ++ pad ++ fs

/-- `str(x)` on a value, as interpolated by the f-strings of the program.
Containers are rendered in a Python-repr style; the formatted fields of
the program are scalars, so only the scalar lines matter to any claim. -/
def pyStr : Value → String
  | .none => "None"
  | .bool true => "True"
  | .bool false => "False"
  | .num q => ratRepr q
  | .str s => s
  | .list _ => "[...]"
  | .dict _ => "\x7b...\x7d"

/-- Comma-group a digit string (thousands separators). -/
def commaGroup (s : String) : String :=
  let chunks : List (List Char) := (s.data.reverse.toChunks 3).map List.reverse
  String.intercalate "," ((chunks.reverse).map String.mk)

/-- Python format `{:,.2f}` on a rational (used for money amounts).  The
cent value is truncated; the program only formats amounts with at most two
decimals, where truncation and float rounding agree. -/
def formatComma2 (q : Rat) : String :=
  let cents : Int := (q * 100).floor
  let sign := if cents < 0 then "-" else ""
  let a := cents.natAbs
  let fs := toString (a % 100)
  let pad := if fs.length < 2 then "0" else ""
  sign ++ commaGroup (toString (a / 100)) ++ "." ++ pad ++ fs

/-- Python format `{:.1f}` on a rational (used for the completion rate). -/
def format1 (q : Rat) : String :=
  let tenths : Int := (q * 10).floor
  let sign := if tenths < 0 then "-" else ""
  let a := tenths.natAbs
  sign ++ toString (a / 10) ++ "." ++ toString (a % 10)

/-- `s * n` string repetition (star ratings). -/
def repeatStr (s : String) (n : Nat) : String :=
  String.join (List.replicate n s)

/-! ## Data stores (`products.json`, `sales.json`, `vendors.json`)

`load_json` / `save_json` become a `Stores` value: each file holds one list
of records under its collection key.  A missing or unparsable file loads as
the empty collection, which the same model covers (the empty list). -/

structure Stores where
  products : List Dict
  sales : List Dict
  vendors : List Dict
deriving DecidableEq

/-- The enumerated product categories (`valid_categories` in the source). -/
def valid_categories : List String :=
  ["Electronics", "Grocery", "Fashion", "Home", "Sports"]

/-- The enumerated payment statuses (`valid_statuses` in the source). -/
def valid_statuses : List String :=
  ["PAID", "PENDING", "CANCELLED"]

namespace ProductTools

/-- `ProductTools.search_products` (the `min_price`/`max_price` parameters
are accepted and ignored, exactly as in the source body). -/
def search_products (db : List Dict) (query : Value) (category : Value)
    (min_price max_price : Value) (min_rating : Value) : List Dict :=
  let query_lower := if truthy query then pyLowerS (asStrD query "") else ""
  let _ := min_price
  let _ := max_price
  db.filter (fun product =>
    let name_match := containsSub (asStrD (dgetD product "name" (.str "")) "") query_lower
    let brand_match := containsSub (asStrD (dgetD product "brand" (.str "")) "") query_lower
    let category_match := containsSub (asStrD (dgetD product "category" (.str "")) "") query_lower
    let desc_match := containsSub (asStrD (dgetD product "description" (.str "")) "") query_lower
    (name_match || brand_match || category_match || desc_match)
      && !(truthy category && pyGet product "category" != category)
      && !(truthy min_rating &&
            asNumD (dgetD product "rating" (.num 0)) 0 < asNumD min_rating 0))

/-- `ProductTools.get_product_by_id` (returns the empty dict when absent). -/
def get_product_by_id (db : List Dict) (product_id : Value) : Dict :=
  match db.find? (fun p => pyGet p "id" == product_id) with
  | some p => p
  | Option.none => []

/-- `ProductTools.validate_product_data`. -/
def validate_product_data (product_data : Dict) : Bool × List String :=
  let errors :=
    (if !truthy (pyGet product_data "id") then ["Product ID is required"] else [])
    ++ (if !truthy (pyGet product_data "name") then ["Product name is required"] else [])
    ++ (if !truthy (pyGet product_data "category") then ["Category is required"] else [])
    ++ (if !vIn (pyGet product_data "category") valid_categories then
          ["Category must be one of: " ++ String.intercalate ", " valid_categories]
        else [])
  (errors.isEmpty, errors)

/-- `ProductTools.create_product`: validate, reject duplicates, append and
save; `saveOk` is the oracle for `save_json` (on failure the file keeps its
old contents and the call reports failure). -/
def create_product (saveOk : Bool) (db : List Dict) (product_data : Dict) :
    (Bool × String × List String) × List Dict :=
  let (is_valid, errors) := validate_product_data product_data
  if !is_valid then ((false, "Validation failed", errors), db)
  else if db.any (fun p => pyGet p "id" == pyGet product_data "id") then
    ((false, "Product ID already exists", ["Duplicate ID"]), db)
  else if saveOk then ((true, "Product created successfully", []), db ++ [product_data])
  else ((false, "Failed to save", []), db)

end ProductTools

/-- Merge an update dict into the first record matching the id (the loop
body of `update_product` / `update_sale`). -/
def updateFirstMatch (db : List Dict) (rid : Value) (u : Dict) : List Dict :=
  match db with
  | [] => []
  | p :: rest =>
    if pyGet p "id" == rid then dictUpdate p u :: rest
    else p :: updateFirstMatch rest rid u

namespace ProductTools

/-- `ProductTools.update_product`.  A non-dict `updates` argument makes
`product.update(updates)` raise in Python once a record matches; that
exception is modelled with `Except.error`. -/
def update_product (saveOk : Bool) (db : List Dict) (product_id : Value)
    (updates : Value) : Except String ((Bool × String) × List Dict) :=
  if db.any (fun p => pyGet p "id" == product_id) then
    match updates with
    | .dict u =>
      if saveOk then .ok ((true, "Product updated successfully"), updateFirstMatch db product_id u)
      else .ok ((false, "Failed to update"), db)
    | _ => .error "TypeError: dict.update on a non-dict"
  else .ok ((false, "Product not found"), db)

end ProductTools

namespace SalesTools

/-- `SalesTools.search_sales` (the date parameters are accepted and ignored,
exactly as in the source body). -/
def search_sales (db : List Dict) (customer_id status : Value) : List Dict :=
  db.filter (fun sale =>
    !(truthy customer_id && pyGet sale "customer_id" != customer_id)
      && !(truthy status && pyGet sale "payment_status" != status))

/-- `SalesTools.get_sale_by_id`. -/
def get_sale_by_id (db : List Dict) (sale_id : Value) : Dict :=
  match db.find? (fun s => pyGet s "id" == sale_id) with
  | some s => s
  | Option.none => []

/-- `SalesTools.validate_sale_data`.  The `total <= 0` comparison is only
evaluated on a truthy total; a truthy non-number would raise in Python and
is read as a passing comparison here (no claim reaches that state). -/
def validate_sale_data (sale_data : Dict) : Bool × List String :=
  let errors :=
    (if !truthy (pyGet sale_data "id") then ["Sale ID is required"] else [])
    ++ (if !truthy (pyGet sale_data "customer_id") then ["Customer ID is required"] else [])
    ++ (if !truthy (pyGet sale_data "total")
           || asNumD (pyGet sale_data "total") 1 ≤ 0 then
          ["Total amount must be greater than 0"]
        else [])
    ++ (if !vIn (pyGet sale_data "payment_status") valid_statuses then
          ["Payment status must be one of: " ++ String.intercalate ", " valid_statuses]
        else [])
  (errors.isEmpty, errors)

/-- `SalesTools.create_sale`: validate, stamp `created_at` with the clock,
append and save. -/
def create_sale (saveOk : Bool) (now_iso : String) (db : List Dict) (sale_data : Dict) :
    (Bool × String × List String) × List Dict :=
  let (is_valid, errors) := validate_sale_data sale_data
  if !is_valid then ((false, "Validation failed", errors), db)
  else
    let sale2 := dset sale_data "created_at" (.str now_iso)
    if saveOk then ((true, "Sale created successfully", []), db ++ [sale2])
    else ((false, "Failed to save", []), db)

/-- `SalesTools.update_sale` (same exception modelling as
`update_product`). -/
def update_sale (saveOk : Bool) (db : List Dict) (sale_id : Value)
    (updates : Value) : Except String ((Bool × String) × List Dict) :=
  if db.any (fun s => pyGet s "id" == sale_id) then
    match updates with
    | .dict u =>
      if saveOk then .ok ((true, "Sale updated successfully"), updateFirstMatch db sale_id u)
      else .ok ((false, "Failed to update"), db)
    | _ => .error "TypeError: dict.update on a non-dict"
  else .ok ((false, "Sale not found"), db)

end SalesTools

/-- `x` read as a list (a non-list would fail Python iteration; unreachable
on the states the claims quantify over). -/
def asListD (v : Value) : List Value :=
  match v with
  | .list l => l
  | _ => []

/-- One step of `product_sales[variant_id] = product_sales.get(variant_id, 0) + qty`
on an insertion-ordered counter. -/
def bumpCount (acc : List (Value × Rat)) (vid : Value) (qty : Rat) : List (Value × Rat) :=
  if acc.any (fun p => p.1 == vid) then
    acc.map (fun p => if p.1 == vid then (p.1, p.2 + qty) else p)
  else acc ++ [(vid, qty)]

namespace AnalyticsTools

/-- `AnalyticsTools.get_top_products`: tally quantities per variant over all
sale items, sort descending (stable, as `sorted(..., reverse=True)`), keep
`limit`. -/
def get_top_products (db_sales : List Dict) (limit : Nat) : List Dict :=
  let product_sales : List (Value × Rat) :=
    db_sales.foldl (fun acc sale =>
      (asListD (dgetD sale "items" (.list []))).foldl (fun acc2 item =>
        bumpCount acc2 (eget item "variant_id") (asNumD (egetD item "qty" (.num 0)) 0)) acc) []
  let sorted_products := product_sales.mergeSort (fun a b => decide (b.2 ≤ a.2))
  (sorted_products.take limit).map
    (fun p => [("variant_id", p.1), ("quantity_sold", Value.num p.2)])

/-- `AnalyticsTools.get_sales_summary`. -/
def get_sales_summary (db_sales : List Dict) : Dict :=
  let total_sales : Rat := db_sales.length
  let total_revenue : Rat :=
    db_sales.foldl (fun acc s => acc + asNumD (dgetD s "total" (.num 0)) 0) 0
  let paid_sales : Rat := (db_sales.filter (fun s => pyGet s "payment_status" == Value.str "PAID")).length
  let pending_sales : Rat := (db_sales.filter (fun s => pyGet s "payment_status" == Value.str "PENDING")).length
  [("total_sales", .num total_sales),
   ("total_revenue", .num total_revenue),
   ("paid_sales", .num paid_sales),
   ("pending_sales", .num pending_sales),
   ("cancelled_sales", .num (total_sales - paid_sales - pending_sales)),
   ("average_transaction", .num (if total_sales > 0 then total_revenue / total_sales else 0)),
   ("payment_completion_rate", .num (if total_sales > 0 then paid_sales / total_sales * 100 else 0))]

/-- `AnalyticsTools.recommend_products`. -/
def recommend_products (db_products db_sales : List Dict) (category : Value)
    (based_on : String) (limit : Nat) : List Dict :=
  let products :=
    if truthy category then db_products.filter (fun p => pyGet p "category" == category)
    else db_products
  if based_on == "rating" then
    (products.mergeSort (fun a b =>
      decide (asNumD (dgetD b "rating" (.num 0)) 0 ≤ asNumD (dgetD a "rating" (.num 0)) 0))).take limit
  else if based_on == "sales" then get_top_products db_sales limit
  else products.take limit

end AnalyticsTools

namespace VendorTools

/-- `VendorTools.list_vendors`. -/
def list_vendors (db : List Dict) : List Dict := db

/-- `VendorTools.get_vendor_by_id`. -/
def get_vendor_by_id (db : List Dict) (vendor_id : Value) : Dict :=
  match db.find? (fun v => pyGet v "id" == vendor_id) with
  | some v => v
  | Option.none => []

end VendorTools

/-! ## Session memory -/

structure Message where
  role : String
  content : String
  timestamp : String
deriving DecidableEq

/-- `SessionMemory`: message log, context map, pending-action stack.  A
pending action is the dict pushed by a handler
(`\x7b"action": ..., "data": ...\x7d`). -/
structure SessionMemory where
  messages : List Message
  context : Dict
  pending_actions : List Dict
deriving DecidableEq

/-- The construction-time context of `SessionMemory.__init__` (and of
`reset`), with the session-start timestamp made explicit. -/
def init_context (session_start : String) : Dict :=
  [("last_product", .none),
   ("last_product_id", .none),
   ("last_filters", .dict []),
   ("last_search_results", .list []),
   ("current_topic", .none),
   ("user_preferences", .dict
      [("price_range", .none),
       ("preferred_categories", .list []),
       ("preferred_brands", .list [])]),
   ("session_start", .str session_start),
   ("customer_id", .none),
   ("last_sale", .none),
   ("conversation_count", .num 0)]

namespace SessionMemory

/-- `SessionMemory.__init__`. -/
def init (session_start : String) : SessionMemory :=
  ⟨[], init_context session_start, []⟩

/-- `SessionMemory.add_message` (appends and bumps
`context["conversation_count"]`; the counter key is seeded at construction,
`asNumD` only stands in for states Python itself could not reach). -/
def add_message (mem : SessionMemory) (role content timestamp : String) : SessionMemory :=
  { mem with
    messages := mem.messages ++ [⟨role, content, timestamp⟩],
    context := dset mem.context "conversation_count"
      (.num (asNumD (pyGet mem.context "conversation_count") 0 + 1)) }

/-- `SessionMemory.update_context`. -/
def update_context (mem : SessionMemory) (key : String) (value : Value) : SessionMemory :=
  { mem with context := dset mem.context key value }

/-- `SessionMemory.update_user_preferences` (only known preference keys are
written; with no `user_preferences` dict Python would raise, modelled as a
no-op on those unreachable states). -/
def update_user_preferences (mem : SessionMemory) (preference_type : String)
    (value : Value) : SessionMemory :=
  match dget mem.context "user_preferences" with
  | some (.dict d) =>
    if hasKey d preference_type then
      { mem with context := dset mem.context "user_preferences" (.dict (dset d preference_type value)) }
    else mem
  | _ => mem

/-- `SessionMemory.add_pending_action`. -/
def add_pending_action (mem : SessionMemory) (action : Dict) : SessionMemory :=
  { mem with pending_actions := mem.pending_actions ++ [action] }

/-- `SessionMemory.get_pending_action` (most recent, or none). -/
def get_pending_action (mem : SessionMemory) : Option Dict :=
  mem.pending_actions.getLast?

/-- `SessionMemory.clear_pending_actions`. -/
def clear_pending_actions (mem : SessionMemory) : SessionMemory :=
  { mem with pending_actions := [] }

/-- `SessionMemory.reset`. -/
def reset (mem : SessionMemory) (session_start : String) : SessionMemory :=
  let _ := mem
  ⟨[], init_context session_start, []⟩

end SessionMemory

/-! ## Intent understanding -/

/-- The confirmation keywords of `understand_input`. -/
def confirm_words : List String := ["yes", "confirm", "ok", "proceed", "sure"]

/-- The negation keywords of `understand_input`. -/
def negation_words : List String := ["no", "cancel", "abort"]

namespace NaturalLanguageUnderstanding

/-- `NaturalLanguageUnderstanding._fallback_intent_detection` (the
deterministic keyword classifier used when the external call fails). -/
def fallback_intent_detection (user_input : String) : Dict :=
  let intent :=
    if lowerContainsAny user_input ["search", "find", "show", "look", "product"] then
      "search_product"
    else if lowerContainsAny user_input ["sale", "order", "purchase", "transaction"] then
      "search_sales"
    else if lowerContainsAny user_input ["recommend", "suggest", "best", "top"] then
      "get_recommendations"
    else if lowerContainsAny user_input ["analytics", "report", "summary", "stats"] then
      "get_analytics"
    else if lowerContainsAny user_input ["vendor", "supplier"] then
      "vendor_query"
    else if lowerContainsAny user_input ["create", "add"] then
      if containsSub user_input "product" then "create_product"
      else if containsSub user_input "sale" then "create_sale"
      else "general_chat"
    else "general_chat"
  [("intent", .str intent), ("entities", .dict []),
   ("requires_clarification", .bool false), ("clarification_needed", .list [])]

/-- `NaturalLanguageUnderstanding.extract_intent_and_entities`: the Groq
call (with the serialized context and code-fence stripping) is the oracle
`ext`; `none` is any failure on that path, which falls back to the keyword
classifier. -/
def extract_intent_and_entities (ext : Option Dict) (user_input : String) : Dict :=
  match ext with
  | some result => result
  | Option.none => fallback_intent_detection user_input

end NaturalLanguageUnderstanding

/-! ## Conversation state and graph nodes -/

/-- `ConversationState` (the LangGraph state dict).  The dynamically typed
fields keep the dynamic `Value` type. -/
structure ConversationState where
  user_input : String
  agent_response : String
  intent : Value
  entities : Value
  conversation_history : List Dict
  context : Dict
  pending_confirmation : Value
  validation_errors : List String
  tool_calls : List Dict
  requires_followup : Value
deriving DecidableEq

/-- The wall clock, in the two renderings the program uses
(`datetime.now().isoformat()` and the compact `strftime` id suffix). -/
structure Clock where
  iso : String
  compact : String
deriving DecidableEq

/-- The `for error in errors: response += "• " + error + "\n"` pattern
(written recursively; string append is associative, so the grouping of the
loop accumulation is immaterial). -/
def bulletLines : List String → String
  | [] => ""
  | e :: t => "• " ++ e ++ "\n" ++ bulletLines t

/-- The `product_data` dict literal of the `create_product` branch of
`product_agent_node`. -/
def mkProductData (entities : Value) : Dict :=
  [("id", eget entities "product_id"),
   ("name", eget entities "product_name"),
   ("category", eget entities "category"),
   ("brand", eget entities "brand"),
   ("description", egetD entities "description" (.str "")),
   ("rating", egetD entities "rating_min" (.num 0)),
   ("company_id", .str "comp_001"),
   ("variants", .list [])]

/-- The `sale_data` dict literal of the `create_sale` branch of
`sales_agent_node`. -/
def mkSaleData (now_compact : String) (entities : Value) : Dict :=
  [("id", egetD entities "sale_id" (.str ("sale_" ++ now_compact))),
   ("customer_id", eget entities "customer_id"),
   ("total", egetD entities "total" (.num 0)),
   ("discount", egetD entities "discount" (.num 0)),
   ("payment_status", egetD entities "status" (.str "PENDING")),
   ("company_id", .str "comp_001"),
   ("items", .list [])]

namespace ChatbotNodes

/-- `ChatbotNodes.understand_input`.  The returned flag records whether the
external classifier was consulted (`False` on both local short-circuits). -/
def understand_input (ext : Option Dict) (mem : SessionMemory)
    (state : ConversationState) : ConversationState × Bool :=
  match (if lowerContainsAny state.user_input confirm_words
         then mem.get_pending_action else Option.none) with
  | some pending =>
    ({ state with intent := .str "confirm_action", entities := .dict pending }, false)
  | Option.none =>
    if lowerContainsAny state.user_input negation_words then
      ({ state with intent := .str "cancel_action" }, false)
    else
      let nlu_result :=
        NaturalLanguageUnderstanding.extract_intent_and_entities ext state.user_input
      ({ state with
          intent := dgetD nlu_result "intent" (.str "general_chat"),
          entities := dgetD nlu_result "entities" (.dict []),
          requires_followup := dgetD nlu_result "requires_clarification" (.bool false) },
       true)

/-- `ChatbotNodes.validate_input`. -/
def validate_input (state : ConversationState) : ConversationState :=
  let entities := state.entities
  let errors :=
    (if ehasKey entities "category" && truthy (eget entities "category")
        && !vIn (eget entities "category") valid_categories then
       ["Invalid category. Choose from: " ++ String.intercalate ", " valid_categories]
     else [])
    ++ (if ehasKey entities "status" && truthy (eget entities "status")
           && !vIn (eget entities "status") valid_statuses then
          ["Invalid status. Choose from: " ++ String.intercalate ", " valid_statuses]
        else [])
  { state with validation_errors := errors }

/-- `ChatbotNodes.route_to_agent`. -/
def route_to_agent (state : ConversationState) : String :=
  let intent := state.intent
  if !state.validation_errors.isEmpty then "handle_validation_errors"
  else if vIn intent ["search_product", "get_product_details", "create_product", "update_product"] then
    "product_agent"
  else if vIn intent ["search_sales", "create_sale", "update_sale"] then "sales_agent"
  else if vIn intent ["get_analytics", "get_recommendations"] then "analytics_agent"
  else if vIn intent ["vendor_query"] then "vendor_agent"
  else if vIn intent ["confirm_action"] then "execute_confirmation"
  else if vIn intent ["cancel_action"] then "handle_cancellation"
  else "general_agent"

/-- One numbered entry of `_format_product_results`. -/
def format_product_line (idx : Nat) (product : Dict) : String :=
  toString idx ++ ". **" ++ pyStr (dgetD product "name" (.str "Unknown")) ++ "**\n"
  ++ "   • ID: " ++ pyStr (pyGet product "id") ++ "\n"
  ++ "   • Category: " ++ pyStr (dgetD product "category" (.str "N/A")) ++ "\n"
  ++ "   • Brand: " ++ pyStr (dgetD product "brand" (.str "N/A")) ++ "\n"
  ++ "   • Rating: " ++ repeatStr "⭐" (asNatD (dgetD product "rating" (.num 0)) 0) ++ "\n"
  ++ "   • Description: " ++ pyStr (dgetD product "description" (.str "No description")) ++ "\n\n"

/-- `ChatbotNodes._format_product_results`. -/
def format_product_results (products : List Dict) : String :=
  if products.isEmpty then "No products found."
  else
    "I found " ++ toString products.length ++ " product(s):\n\n"
    ++ String.join ((products.take 10).enum.map (fun p => format_product_line (p.1 + 1) p.2))
    ++ (if products.length > 10 then
          "...and " ++ toString (products.length - 10) ++ " more products.\n"
        else "")

/-- `ChatbotNodes._format_product_details`. -/
def format_product_details (product : Dict) : String :=
  "📦 **Product Details**\n\n"
  ++ "**" ++ pyStr (dgetD product "name" (.str "Unknown")) ++ "**\n\n"
  ++ "• ID: " ++ pyStr (pyGet product "id") ++ "\n"
  ++ "• Category: " ++ pyStr (dgetD product "category" (.str "N/A")) ++ "\n"
  ++ "• Brand: " ++ pyStr (dgetD product "brand" (.str "N/A")) ++ "\n"
  ++ "• Rating: " ++ pyStr (dgetD product "rating" (.num 0)) ++ "/5 "
  ++ repeatStr "⭐" (asNatD (dgetD product "rating" (.num 0)) 0) ++ "\n"
  ++ "• Description: " ++ pyStr (dgetD product "description" (.str "No description available")) ++ "\n"
  ++ (if truthy (pyGet product "variants") then
        "\n**Available Variants:** " ++ toString (asListD (pyGet product "variants")).length ++ "\n"
      else "")

/-- One numbered entry of `_format_sales_results`. -/
def format_sale_line (idx : Nat) (sale : Dict) : String :=
  toString idx ++ ". **Sale " ++ pyStr (pyGet sale "id") ++ "**\n"
  ++ "   • Customer: " ++ pyStr (pyGet sale "customer_id") ++ "\n"
  ++ "   • Total: ₹" ++ formatComma2 (asNumD (dgetD sale "total" (.num 0)) 0) ++ "\n"
  ++ "   • Status: " ++ pyStr (dgetD sale "payment_status" (.str "UNKNOWN")) ++ "\n"
  ++ "   • Date: " ++ pyStr (dgetD sale "created_at" (.str "N/A")) ++ "\n\n"

/-- `ChatbotNodes._format_sales_results`. -/
def format_sales_results (sales : List Dict) : String :=
  if sales.isEmpty then "No sales found."
  else
    "I found " ++ toString sales.length ++ " sale(s):\n\n"
    ++ String.join ((sales.take 10).enum.map (fun p => format_sale_line (p.1 + 1) p.2))
    ++ (if sales.length > 10 then
          "...and " ++ toString (sales.length - 10) ++ " more sales.\n"
        else "")

/-- One numbered entry of `_format_vendor_list`. -/
def format_vendor_line (idx : Nat) (vendor : Dict) : String :=
  toString idx ++ ". **" ++ pyStr (dgetD vendor "name" (.str "Unknown")) ++ "**\n"
  ++ "   • ID: " ++ pyStr (pyGet vendor "id") ++ "\n"
  ++ "   • Contact: " ++ pyStr (dgetD vendor "contact" (.str "N/A")) ++ "\n\n"

/-- `ChatbotNodes._format_vendor_list`. -/
def format_vendor_list (vendors : List Dict) : String :=
  String.join (vendors.enum.map (fun p => format_vendor_line (p.1 + 1) p.2))

/-- `ChatbotNodes._format_vendor_details`. -/
def format_vendor_details (vendor : Dict) : String :=
  "🏢 **Vendor Details**\n\n"
  ++ "**" ++ pyStr (dgetD vendor "name" (.str "Unknown")) ++ "**\n\n"
  ++ "• ID: " ++ pyStr (pyGet vendor "id") ++ "\n"
  ++ "• Contact: " ++ pyStr (dgetD vendor "contact" (.str "N/A")) ++ "\n"
  ++ "• Email: " ++ pyStr (dgetD vendor "email" (.str "N/A")) ++ "\n"
  ++ "• Phone: " ++ pyStr (dgetD vendor "phone" (.str "N/A")) ++ "\n"

/-- `ChatbotNodes.product_agent_node`. -/
def product_agent_node (stores : Stores) (mem : SessionMemory)
    (state : ConversationState) : SessionMemory × ConversationState :=
  let intent := state.intent
  let entities := state.entities
  if intent == .str "search_product" then
    let results := ProductTools.search_products stores.products
      (egetD entities "product_name" (.str "")) (eget entities "category")
      .none .none (eget entities "rating_min")
    let mem1 := (mem.update_context "last_search_results"
        (.list (results.map Value.dict))).update_context "last_filters" entities
    let response :=
      if !results.isEmpty then format_product_results results
      else "I couldn\x27t find any products matching your search. Could you try different keywords or specify a category?"
    (mem1, { state with agent_response := response })
  else if intent == .str "get_product_details" then
    let product_id := eget entities "product_id"
    let product_id := if !truthy product_id then pyGet mem.context "last_product_id" else product_id
    let response :=
      if truthy product_id then
        let product := ProductTools.get_product_by_id stores.products product_id
        if !product.isEmpty then format_product_details product
        else "I couldn\x27t find a product with ID \x27" ++ pyStr product_id
          ++ "\x27. Please check the ID and try again."
      else "Could you please provide the product ID? You can say something like \x27show details for prod_001\x27."
    (mem, { state with agent_response := response })
  else if intent == .str "create_product" then
    let product_data := mkProductData entities
    let (is_valid, errors) := ProductTools.validate_product_data product_data
    if !is_valid then
      let response := "I need some more information to create this product:\n"
        ++ bulletLines errors ++ "\nPlease provide the missing details."
      (mem, { state with agent_response := response })
    else
      let mem1 := mem.add_pending_action
        [("action", .str "create_product"), ("data", .dict product_data)]
      let response := "I\x27m ready to create a new product with these details:\n\n"
        ++ "• Product ID: " ++ pyStr (pyGet product_data "id") ++ "\n"
        ++ "• Name: " ++ pyStr (pyGet product_data "name") ++ "\n"
        ++ "• Category: " ++ pyStr (pyGet product_data "category") ++ "\n"
        ++ "• Brand: " ++ pyStr (dgetD product_data "brand" (.str "N/A")) ++ "\n\n"
        ++ "Would you like me to proceed with creating this product? (Yes/No)"
      (mem1, { state with agent_response := response, pending_confirmation := .dict product_data })
  else if intent == .str "get_recommendations" then
    let category := eget entities "category"
    let limit := asNatD (egetD entities "limit" (.num 5)) 5
    let recommendations :=
      AnalyticsTools.recommend_products stores.products stores.sales category "rating" limit
    let response :=
      if !recommendations.isEmpty then
        "Here are my top recommendations"
        ++ (if truthy category then " for " ++ pyStr category else "")
        ++ ":\n\n" ++ format_product_results recommendations
      else "I don\x27t have enough data to make recommendations right now."
    (mem, { state with agent_response := response })
  else (mem, state)

/-- `ChatbotNodes.sales_agent_node`. -/
def sales_agent_node (now_compact : String) (stores : Stores) (mem : SessionMemory)
    (state : ConversationState) : SessionMemory × ConversationState :=
  let intent := state.intent
  let entities := state.entities
  if intent == .str "search_sales" then
    let results := SalesTools.search_sales stores.sales
      (eget entities "customer_id") (eget entities "status")
    let mem1 := mem.update_context "last_sale"
      (match results with | s :: _ => .dict s | [] => .none)
    let response :=
      if !results.isEmpty then format_sales_results results
      else "I couldn\x27t find any sales records matching your criteria. Try adjusting your search parameters."
    (mem1, { state with agent_response := response })
  else if intent == .str "create_sale" then
    let sale_data := mkSaleData now_compact entities
    let (is_valid, errors) := SalesTools.validate_sale_data sale_data
    if !is_valid then
      let response := "I need more information to create this sale:\n"
        ++ bulletLines errors ++ "\nPlease provide the missing details."
      (mem, { state with agent_response := response })
    else
      let mem1 := mem.add_pending_action
        [("action", .str "create_sale"), ("data", .dict sale_data)]
      let response := "I\x27m ready to create a new sale:\n\n"
        ++ "• Sale ID: " ++ pyStr (pyGet sale_data "id") ++ "\n"
        ++ "• Customer ID: " ++ pyStr (pyGet sale_data "customer_id") ++ "\n"
        ++ "• Total: ₹" ++ pyStr (pyGet sale_data "total") ++ "\n"
        ++ "• Status: " ++ pyStr (pyGet sale_data "payment_status") ++ "\n\n"
        ++ "Shall I proceed with creating this sale? (Yes/No)"
      (mem1, { state with agent_response := response, pending_confirmation := .dict sale_data })
  else (mem, state)

/-- `ChatbotNodes.analytics_agent_node`. -/
def analytics_agent_node (stores : Stores) (state : ConversationState) : ConversationState :=
  if state.intent == .str "get_analytics" then
    let summary := AnalyticsTools.get_sales_summary stores.sales
    let top_products := AnalyticsTools.get_top_products stores.sales 5
    let response := "📊 **Sales Analytics Summary**\n\n"
      ++ "• Total Sales: " ++ pyStr (pyGet summary "total_sales") ++ "\n"
      ++ "• Total Revenue: ₹" ++ formatComma2 (asNumD (pyGet summary "total_revenue") 0) ++ "\n"
      ++ "• Paid Sales: " ++ pyStr (pyGet summary "paid_sales") ++ "\n"
      ++ "• Pending Sales: " ++ pyStr (pyGet summary "pending_sales") ++ "\n"
      ++ "• Average Transaction: ₹" ++ formatComma2 (asNumD (pyGet summary "average_transaction") 0) ++ "\n"
      ++ "• Payment Completion Rate: " ++ format1 (asNumD (pyGet summary "payment_completion_rate") 0) ++ "%\n\n"
      ++ (if !top_products.isEmpty then
            "🔥 **Top Selling Products:**\n"
            ++ String.join (top_products.enum.map (fun p =>
                 toString (p.1 + 1) ++ ". Variant ID: " ++ pyStr (pyGet p.2 "variant_id")
                 ++ " - Sold: " ++ pyStr (pyGet p.2 "quantity_sold") ++ " units\n"))
          else "")
    { state with agent_response := response }
  else state

/-- `ChatbotNodes.vendor_agent_node`. -/
def vendor_agent_node (stores : Stores) (state : ConversationState) : ConversationState :=
  let entities := state.entities
  let response :=
    if truthy (eget entities "vendor_id") then
      let vendor := VendorTools.get_vendor_by_id stores.vendors (eget entities "vendor_id")
      if !vendor.isEmpty then format_vendor_details vendor
      else "I couldn\x27t find a vendor with ID \x27" ++ pyStr (eget entities "vendor_id") ++ "\x27."
    else
      let vendors := VendorTools.list_vendors stores.vendors
      if !vendors.isEmpty then "Here are all our vendors:\n\n" ++ format_vendor_list vendors
      else "No vendors found in the database."
  { state with agent_response := response }

/-- `ChatbotNodes.general_agent_node`: the generator oracle, with the fixed
fallback reply on failure. -/
def general_agent_node (gen : Option String) (state : ConversationState) : ConversationState :=
  match gen with
  | some response => { state with agent_response := response }
  | Option.none =>
    { state with agent_response := "I\x27m here to help! You can ask me to search for products, check sales, get analytics, or manage vendors. What would you like to do?" }

/-- `ChatbotNodes.execute_confirmation_node`: read the most recent pending
action, dispatch on its kind, format the outcome and clear the stack.  A
payload that is not a dict would raise in Python (AttributeError inside the
tool call before any write); that is the `Except.error` case. -/
def execute_confirmation_node (now_iso : String) (saveOk : Bool) (stores : Stores)
    (mem : SessionMemory) (state : ConversationState) :
    Except String (Stores × SessionMemory × ConversationState) :=
  match mem.get_pending_action with
  | Option.none =>
    .ok (stores, mem,
      { state with agent_response := "There\x27s nothing pending to confirm. How else can I help you?" })
  | some pending =>
    let action := pyGet pending "action"
    let dataV := pyGet pending "data"
    if action == .str "create_product" then
      match dataV with
      | .dict data =>
        let ((success, message, errors), products2) :=
          ProductTools.create_product saveOk stores.products data
        let response :=
          if success then
            "✅ Great! I\x27ve successfully created the product \x27" ++ pyStr (pyGet data "name")
            ++ "\x27 (ID: " ++ pyStr (pyGet data "id") ++ ").\n\n"
            ++ "The product is now in your inventory. What would you like to do next?"
          else
            "❌ Sorry, I couldn\x27t create the product: " ++ message ++ "\n"
            ++ bulletLines errors
        .ok ({ stores with products := products2 }, mem.clear_pending_actions,
             { state with agent_response := response })
      | _ => .error "AttributeError: confirmation payload is not a dict"
    else if action == .str "create_sale" then
      match dataV with
      | .dict data =>
        let ((success, message, errors), sales2) :=
          SalesTools.create_sale saveOk now_iso stores.sales data
        let response :=
          if success then
            "✅ Perfect! I\x27ve created the sale record (ID: " ++ pyStr (pyGet data "id") ++ ").\n\n"
            ++ "• Customer: " ++ pyStr (pyGet data "customer_id") ++ "\n"
            ++ "• Total: ₹" ++ pyStr (pyGet data "total") ++ "\n"
            ++ "• Status: " ++ pyStr (pyGet data "payment_status") ++ "\n\n"
            ++ "Is there anything else you need help with?"
          else
            "❌ I couldn\x27t create the sale: " ++ message ++ "\n" ++ bulletLines errors
        .ok ({ stores with sales := sales2 }, mem.clear_pending_actions,
             { state with agent_response := response })
      | _ => .error "AttributeError: confirmation payload is not a dict"
    else if action == .str "update_product" then
      match dataV with
      | .dict data =>
        let product_id := pyGet data "product_id"
        let updates := pyGet data "updates"
        match ProductTools.update_product saveOk stores.products product_id updates with
        | .ok ((success, message), products2) =>
          let response :=
            if success then
              "✅ Done! I\x27ve updated the product (ID: " ++ pyStr product_id ++ ").\n\n"
              ++ "The changes have been saved. Anything else?"
            else "❌ Sorry, I couldn\x27t update the product: " ++ message
          .ok ({ stores with products := products2 }, mem.clear_pending_actions,
               { state with agent_response := response })
        | .error e => .error e
      | _ => .error "AttributeError: confirmation payload is not a dict"
    else if action == .str "update_sale" then
      match dataV with
      | .dict data =>
        let sale_id := pyGet data "sale_id"
        let updates := pyGet data "updates"
        match SalesTools.update_sale saveOk stores.sales sale_id updates with
        | .ok ((success, message), sales2) =>
          let response :=
            if success then
              "✅ All set! I\x27ve updated the sale (ID: " ++ pyStr sale_id ++ ").\n\n"
              ++ "The changes are now saved. What\x27s next?"
            else "❌ I couldn\x27t update the sale: " ++ message
          .ok ({ stores with sales := sales2 }, mem.clear_pending_actions,
               { state with agent_response := response })
        | .error e => .error e
      | _ => .error "AttributeError: confirmation payload is not a dict"
    else .ok (stores, mem, state)

/-- `ChatbotNodes.handle_cancellation_node`. -/
def handle_cancellation_node (mem : SessionMemory) (state : ConversationState) :
    SessionMemory × ConversationState :=
  (mem.clear_pending_actions,
   { state with agent_response := "No problem! I\x27ve cancelled that action. What else can I help you with?" })

/-- `ChatbotNodes.handle_validation_errors_node`. -/
def handle_validation_errors_node (state : ConversationState) : ConversationState :=
  { state with agent_response :=
      "I noticed some issues with your request:\n\n"
      ++ bulletLines state.validation_errors
      ++ "\nCould you please provide the correct information?" }

end ChatbotNodes

/-! ## The per-turn pipeline (`build_conversation_graph` + `process_message`) -/

/-- The `initial_state` dict of `EnhancedChatbot.process_message`. -/
def initState (mem : SessionMemory) (user_input : String) : ConversationState :=
  { user_input := user_input,
    agent_response := "",
    intent := .none,
    entities := .dict [],
    conversation_history := [[("role", .str "user"), ("content", .str user_input)]],
    context := mem.context,
    pending_confirmation := .none,
    validation_errors := [],
    tool_calls := [],
    requires_followup := .bool false }

/-- The outcome of one pass through the compiled graph. -/
structure TurnResult where
  stores : Stores
  mem : SessionMemory
  state : ConversationState
  used_external : Bool
deriving DecidableEq

/-- One pass through the compiled graph: understand → validate → route →
selected node (the fixed topology of `build_conversation_graph`). -/
def run_turn (ext : Option Dict) (gen : Option String) (clock : Clock) (saveOk : Bool)
    (stores : Stores) (mem : SessionMemory) (user_input : String) :
    Except String TurnResult :=
  let st0 := initState mem user_input
  let u := ChatbotNodes.understand_input ext mem st0
  let used := u.2
  let st2 := ChatbotNodes.validate_input u.1
  let route := ChatbotNodes.route_to_agent st2
  if route == "product_agent" then
    let r := ChatbotNodes.product_agent_node stores mem st2
    .ok ⟨stores, r.1, r.2, used⟩
  else if route == "sales_agent" then
    let r := ChatbotNodes.sales_agent_node clock.compact stores mem st2
    .ok ⟨stores, r.1, r.2, used⟩
  else if route == "analytics_agent" then
    .ok ⟨stores, mem, ChatbotNodes.analytics_agent_node stores st2, used⟩
  else if route == "vendor_agent" then
    .ok ⟨stores, mem, ChatbotNodes.vendor_agent_node stores st2, used⟩
  else if route == "execute_confirmation" then
    match ChatbotNodes.execute_confirmation_node clock.iso saveOk stores mem st2 with
    | .ok (stores2, mem2, st3) => .ok ⟨stores2, mem2, st3, used⟩
    | .error e => .error e
  else if route == "handle_cancellation" then
    let r := ChatbotNodes.handle_cancellation_node mem st2
    .ok ⟨stores, r.1, r.2, used⟩
  else if route == "handle_validation_errors" then
    .ok ⟨stores, mem, ChatbotNodes.handle_validation_errors_node st2, used⟩
  else
    .ok ⟨stores, mem, ChatbotNodes.general_agent_node gen st2, used⟩

/-- `EnhancedChatbot.process_message`: log the user turn, run the graph,
log and return the response; a graph exception becomes the generic error
reply (memory keeps only the user message, stores are untouched). -/
def process_message (ext : Option Dict) (gen : Option String) (clock : Clock) (saveOk : Bool)
    (stores : Stores) (mem : SessionMemory) (user_input : String) :
    String × SessionMemory × Stores :=
  let mem1 := mem.add_message "user" user_input clock.iso
  match run_turn ext gen clock saveOk stores mem1 user_input with
  | .ok r =>
    (r.state.agent_response, r.mem.add_message "assistant" r.state.agent_response clock.iso,
     r.stores)
  | .error e =>
    ("I encountered an error: " ++ e ++ ". Could you try again?", mem1, stores)

/-! ## General lemmas about the embedding primitives -/

instance : LawfulBEq Value where
  eq_of_beq h := Value.eq_of_beq h
  rfl := Value.beq_refl _

theorem infix_bulletLines {e : String} {errors : List String} (h : e ∈ errors) :
    e.data <:+: (bulletLines errors).data := by
  induction errors with
  | nil => cases h
  | cons x t ih =>
    rcases List.mem_cons.mp h with h1 | h2
    · subst h1
      exact ⟨"• ".data, ("\n" ++ bulletLines t).data, by
        simp [bulletLines, String.data_append, List.append_assoc]⟩
    · refine (ih h2).trans ⟨("• " ++ x ++ "\n").data, [], ?_⟩
      simp [bulletLines, String.data_append]

theorem infix_of_middle {e : String} (pre mid post : String)
    (h : e.data <:+: mid.data) : e.data <:+: (pre ++ mid ++ post).data := by
  rcases h with ⟨s, t, hm⟩
  exact ⟨pre.data ++ s, t ++ post.data, by
    simp [String.data_append, ← hm, List.append_assoc]⟩

theorem dget_cons (a : String) (b : Value) (t : Dict) (k2 : String) :
    dget ((a, b) :: t) k2 = if (a == k2) = true then some b else dget t k2 := by
  unfold dget
  rw [List.find?_cons]
  by_cases h : (a == k2) = true
  · simp [h]
  · simp [h]

theorem dget_map_replace_self (d : Dict) (k : String) (v : Value)
    (han : d.any (fun p => p.1 == k) = true) :
    dget (d.map (fun p => if (p.1 == k) = true then (k, v) else p)) k = some v := by
  induction d with
  | nil => simp at han
  | cons hd t ih =>
    obtain ⟨a, b⟩ := hd
    by_cases hh : (a == k) = true
    · simp only [List.map_cons]
      rw [if_pos (by simpa using hh), dget_cons]
      simp
    · simp only [List.map_cons]
      rw [if_neg (by simpa using hh), dget_cons, if_neg (by simpa using hh)]
      apply ih
      simp only [List.any_cons, Bool.or_eq_true] at han
      rcases han with h1 | h2
      · exact absurd (by simpa using h1) hh
      · exact h2

theorem dget_append_single_self (d : Dict) (k : String) (v : Value)
    (han : d.any (fun p => p.1 == k) = false) :
    dget (d ++ [(k, v)]) k = some v := by
  induction d with
  | nil => rw [List.nil_append, dget_cons]; simp
  | cons hd t ih =>
    obtain ⟨a, b⟩ := hd
    simp only [List.any_cons, Bool.or_eq_false_iff] at han
    rw [List.cons_append, dget_cons, if_neg (by simpa using han.1)]
    exact ih han.2

theorem dget_isSome_map_replace (d : Dict) (k k2 : String) (v : Value)
    (h : (dget d k2).isSome = true) :
    (dget (d.map (fun p => if (p.1 == k) = true then (k, v) else p)) k2).isSome = true := by
  induction d with
  | nil => simp [dget] at h
  | cons hd t ih =>
    obtain ⟨a, b⟩ := hd
    rw [dget_cons] at h
    by_cases hh : (a == k) = true
    · simp only [List.map_cons]
      rw [if_pos (by simpa using hh), dget_cons]
      by_cases hk2 : (k == k2) = true
      · simp [hk2]
      · rw [if_neg hk2]
        apply ih
        have ha : ¬(a == k2) = true := by
          have hak : a = k := by simpa using hh
          subst hak; exact hk2
        rw [if_neg ha] at h
        exact h
    · simp only [List.map_cons]
      rw [if_neg (by simpa using hh), dget_cons]
      by_cases ha : (a == k2) = true
      · simp [ha]
      · rw [if_neg ha]
        rw [if_neg ha] at h
        exact ih h

theorem dget_isSome_append_single (d : Dict) (k k2 : String) (v : Value)
    (h : (dget d k2).isSome = true) :
    (dget (d ++ [(k, v)]) k2).isSome = true := by
  induction d with
  | nil => simp [dget] at h
  | cons hd t ih =>
    obtain ⟨a, b⟩ := hd
    rw [dget_cons] at h
    rw [List.cons_append, dget_cons]
    by_cases ha : (a == k2) = true
    · simp [ha]
    · rw [if_neg ha]
      rw [if_neg ha] at h
      exact ih h

theorem dget_dset_self (d : Dict) (k : String) (v : Value) :
    dget (dset d k v) k = some v := by
  unfold dset
  by_cases han : d.any (fun p => p.1 == k) = true
  · rw [if_pos han]
    exact dget_map_replace_self d k v han
  · rw [if_neg han]
    exact dget_append_single_self d k v (by revert han; cases d.any (fun p => p.1 == k) <;> simp)

theorem dget_isSome_dset (d : Dict) (k k2 : String) (v : Value)
    (h : (dget d k2).isSome = true) : (dget (dset d k v) k2).isSome = true := by
  unfold dset
  by_cases han : d.any (fun p => p.1 == k) = true
  · rw [if_pos han]
    exact dget_isSome_map_replace d k k2 v h
  · rw [if_neg han]
    exact dget_isSome_append_single d k k2 v h

theorem pyGet_head (k : String) (v : Value) (t : Dict) : pyGet ((k, v) :: t) k = v := by
  unfold pyGet dgetD
  rw [dget_cons, if_pos (by simp)]
  rfl

/-! ## Claim C4: totality of the router -/

/-- The Router mapping exactly as the specification states it (section 4.4):
validation errors always win; otherwise dispatch by membership of the
intent in the fixed sets, with the general handler as catch-all for
anything outside the closed enumeration. -/
def route_spec (st : ConversationState) : String :=
  if st.validation_errors ≠ [] then "handle_validation_errors"
  else
    match st.intent with
    | .str s =>
      if s ∈ ["search_product", "get_product_details", "create_product", "update_product"] then
        "product_agent"
      else if s ∈ ["search_sales", "create_sale", "update_sale"] then "sales_agent"
      else if s ∈ ["get_analytics", "get_recommendations"] then "analytics_agent"
      else if s ∈ ["vendor_query"] then "vendor_agent"
      else if s ∈ ["confirm_action"] then "execute_confirmation"
      else if s ∈ ["cancel_action"] then "handle_cancellation"
      else "general_agent"
    | _ => "general_agent"

/-- Claim C4: the routing function is total and matches the specified
table: a non-empty validation error list always routes to the
validation-error handler regardless of intent; otherwise each of the
thirteen enumerated intents routes to its unique handler and every value
outside the enumeration (including every non-string intent) routes to the
general handler. -/
theorem route_total_matches_spec (st : ConversationState) :
    ChatbotNodes.route_to_agent st = route_spec st := by
  unfold ChatbotNodes.route_to_agent route_spec
  by_cases he : st.validation_errors = []
  · cases hi : st.intent <;> simp [he, hi, vIn, List.elem_iff]
  · simp [he, List.isEmpty_iff]

/-! ## Claim C3: the confirmation short-circuit -/

/-- Claim C3 (counterexample): with a pending action staged and the turn
text "yes", `understand_input` sets `entities` to the whole pending-action
object (kind and payload), which differs from the payload alone. -/
theorem confirm_entities_whole_pending_counterexample :
    (ChatbotNodes.understand_input Option.none
        ((SessionMemory.init "t0").add_pending_action
          [("action", .str "create_product"), ("data", .dict [("id", .str "p1")])])
        (initState ((SessionMemory.init "t0").add_pending_action
          [("action", .str "create_product"), ("data", .dict [("id", .str "p1")])]) "yes")).1.entities
      = .dict [("action", .str "create_product"), ("data", .dict [("id", .str "p1")])]
    ∧ Value.dict [("action", .str "create_product"), ("data", .dict [("id", .str "p1")])]
        ≠ pyGet [("action", .str "create_product"), ("data", .dict [("id", .str "p1")])] "data" := by
  decide

/-- Claim C3 (amended): for every turn whose text contains a confirmation
token while a pending action exists, `understand_input` short-circuits to
intent `confirm_action` with `entities` set to the entire pending-action
object (not just its payload), without consulting the external
classifier. -/
theorem confirm_shortcircuit_entities (ext : Option Dict) (mem : SessionMemory)
    (st : ConversationState) (pending : Dict)
    (hc : lowerContainsAny st.user_input confirm_words = true)
    (hp : mem.get_pending_action = some pending) :
    ChatbotNodes.understand_input ext mem st
      = ({ st with intent := .str "confirm_action", entities := .dict pending }, false) := by
  unfold ChatbotNodes.understand_input
  simp [hc, hp]

/-- Claim C3 (witness). -/
theorem confirm_shortcircuit_entities_witness :
    ChatbotNodes.understand_input Option.none
        ((SessionMemory.init "t0").add_pending_action [("action", .str "create_sale"), ("data", .dict [])])
        (initState ((SessionMemory.init "t0").add_pending_action
          [("action", .str "create_sale"), ("data", .dict [])]) "ok")
      = ({ initState ((SessionMemory.init "t0").add_pending_action
            [("action", .str "create_sale"), ("data", .dict [])]) "ok" with
            intent := .str "confirm_action",
            entities := .dict [("action", .str "create_sale"), ("data", .dict [])] }, false) :=
  confirm_shortcircuit_entities Option.none _ _ _ (by decide) (by decide)

/-! ## Claim C9: the fallback classifier never produces the create intents -/

/-- Claim C9 (counterexample): the sub-claim that any text containing the
substring "sale" is classified `search_sales` fails: "show sale" contains
"sale" yet is classified `search_product` by the earlier search branch. -/
theorem fallback_sale_clause_counterexample :
    containsSub "show sale" "sale" = true
    ∧ pyGet (NaturalLanguageUnderstanding.fallback_intent_detection "show sale") "intent"
        = .str "search_product"
    ∧ Value.str "search_product" ≠ .str "search_sales" := by
  decide

/-- Claim C9 (amended): the keyword fallback never returns `create_product`
or `create_sale`: any text containing "product" is caught by the search
branch, and any text containing "sale" that matches none of the search
keywords is caught by the `search_sales` branch, so the create branches
(which require one of those substrings) are unreachable. -/
theorem fallback_never_creates (user_input : String) :
    (pyGet (NaturalLanguageUnderstanding.fallback_intent_detection user_input) "intent"
       ≠ .str "create_product")
    ∧ (pyGet (NaturalLanguageUnderstanding.fallback_intent_detection user_input) "intent"
       ≠ .str "create_sale")
    ∧ (containsSub user_input "product" = true →
        pyGet (NaturalLanguageUnderstanding.fallback_intent_detection user_input) "intent"
          = .str "search_product")
    ∧ (containsSub user_input "sale" = true →
        lowerContainsAny user_input ["search", "find", "show", "look", "product"] = false →
        pyGet (NaturalLanguageUnderstanding.fallback_intent_detection user_input) "intent"
          = .str "search_sales") := by
  have hprod : containsSub user_input "product" = true →
      lowerContainsAny user_input ["search", "find", "show", "look", "product"] = true :=
    fun h => List.any_eq_true.mpr ⟨"product", by simp, h⟩
  have hsale : containsSub user_input "sale" = true →
      lowerContainsAny user_input ["sale", "order", "purchase", "transaction"] = true :=
    fun h => List.any_eq_true.mpr ⟨"sale", by simp, h⟩
  unfold NaturalLanguageUnderstanding.fallback_intent_detection
  simp only [pyGet_head]
  cases h1 : lowerContainsAny user_input ["search", "find", "show", "look", "product"] with
  | true =>
    simp only [h1, if_true]
    exact ⟨by simp, by simp, fun _ => by simp, fun hs h1f => by simp [h1] at h1f⟩
  | false =>
    simp only [h1, Bool.false_eq_true, if_false]
    cases h2 : lowerContainsAny user_input ["sale", "order", "purchase", "transaction"] with
    | true =>
      simp only [h2, if_true]
      exact ⟨by simp, by simp,
        fun hp => absurd (hprod hp) (by simp [h1]), fun _ _ => by simp⟩
    | false =>
      simp only [h2, Bool.false_eq_true, if_false]
      cases h3 : lowerContainsAny user_input ["recommend", "suggest", "best", "top"] with
      | true =>
        simp only [h3, if_true]
        exact ⟨by simp, by simp,
          fun hp => absurd (hprod hp) (by simp [h1]),
          fun hs _ => absurd (hsale hs) (by simp [h2])⟩
      | false =>
        simp only [h3, Bool.false_eq_true, if_false]
        cases h4 : lowerContainsAny user_input ["analytics", "report", "summary", "stats"] with
        | true =>
          simp only [h4, if_true]
          exact ⟨by simp, by simp,
            fun hp => absurd (hprod hp) (by simp [h1]),
            fun hs _ => absurd (hsale hs) (by simp [h2])⟩
        | false =>
          simp only [h4, Bool.false_eq_true, if_false]
          cases h5 : lowerContainsAny user_input ["vendor", "supplier"] with
          | true =>
            simp only [h5, if_true]
            exact ⟨by simp, by simp,
              fun hp => absurd (hprod hp) (by simp [h1]),
              fun hs _ => absurd (hsale hs) (by simp [h2])⟩
          | false =>
            simp only [h5, Bool.false_eq_true, if_false]
            cases h6 : lowerContainsAny user_input ["create", "add"] with
            | true =>
              simp only [h6, if_true]
              cases h7 : containsSub user_input "product" with
              | true => exact absurd (hprod h7) (by simp [h1])
              | false =>
                simp only [h7, Bool.false_eq_true, if_false]
                cases h8 : containsSub user_input "sale" with
                | true => exact absurd (hsale h8) (by simp [h2])
                | false =>
                  simp only [h8, Bool.false_eq_true, if_false]
                  exact ⟨by simp, by simp, fun hp => hp.elim, fun hs _ => hs.elim⟩
            | false =>
              simp only [h6, Bool.false_eq_true, if_false]
              exact ⟨by simp, by simp,
                fun hp => absurd (hprod hp) (by simp [h1]),
                fun hs _ => absurd (hsale hs) (by simp [h2])⟩

/-- Claim C9 (witness): the amended per-substring clauses at concrete
inputs. -/
theorem fallback_never_creates_witness :
    pyGet (NaturalLanguageUnderstanding.fallback_intent_detection "product") "intent"
      = .str "search_product"
    ∧ pyGet (NaturalLanguageUnderstanding.fallback_intent_detection "sale") "intent"
      = .str "search_sales" :=
  ⟨(fallback_never_creates "product").2.2.1 (by decide),
   (fallback_never_creates "sale").2.2.2 (by decide) (by decide)⟩

/-! ## Claim C5: failed completeness validation stages nothing -/

/-- Claim C5: for every create/update handler invocation whose local
completeness validation fails, no PendingAction is pushed (the session
memory, hence the stack, is unchanged) and the response lists every
validation error; the update intents run no completeness validation and
leave memory and state untouched entirely, so no update invocation can
fail it. -/
theorem create_validation_failure_stages_nothing
    (stores : Stores) (mem : SessionMemory) (st : ConversationState) (now_compact : String) :
    (st.intent = .str "create_product" →
      (ProductTools.validate_product_data (mkProductData st.entities)).1 = false →
      (ChatbotNodes.product_agent_node stores mem st).1 = mem
      ∧ ∀ e ∈ (ProductTools.validate_product_data (mkProductData st.entities)).2,
          e.data <:+: (ChatbotNodes.product_agent_node stores mem st).2.agent_response.data)
    ∧ (st.intent = .str "create_sale" →
      (SalesTools.validate_sale_data (mkSaleData now_compact st.entities)).1 = false →
      (ChatbotNodes.sales_agent_node now_compact stores mem st).1 = mem
      ∧ ∀ e ∈ (SalesTools.validate_sale_data (mkSaleData now_compact st.entities)).2,
          e.data <:+: (ChatbotNodes.sales_agent_node now_compact stores mem st).2.agent_response.data)
    ∧ (st.intent = .str "update_product" →
        ChatbotNodes.product_agent_node stores mem st = (mem, st))
    ∧ (st.intent = .str "update_sale" →
        ChatbotNodes.sales_agent_node now_compact stores mem st = (mem, st)) := by
  refine ⟨?_, ?_, ?_, ?_⟩
  · intro hi hv
    obtain ⟨E, hval⟩ : ∃ E, ProductTools.validate_product_data (mkProductData st.entities)
        = (false, E) := ⟨_, Prod.ext hv rfl⟩
    refine ⟨?_, ?_⟩
    · simp [ChatbotNodes.product_agent_node, hi, hval]
    · intro e he
      rw [hval] at he
      have hresp : (ChatbotNodes.product_agent_node stores mem st).2.agent_response
          = "I need some more information to create this product:\n"
            ++ bulletLines E ++ "\nPlease provide the missing details." := by
        simp [ChatbotNodes.product_agent_node, hi, hval]
      rw [hresp]
      exact infix_of_middle _ _ _ (infix_bulletLines he)
  · intro hi hv
    obtain ⟨E, hval⟩ : ∃ E, SalesTools.validate_sale_data (mkSaleData now_compact st.entities)
        = (false, E) := ⟨_, Prod.ext hv rfl⟩
    refine ⟨?_, ?_⟩
    · simp [ChatbotNodes.sales_agent_node, hi, hval]
    · intro e he
      rw [hval] at he
      have hresp : (ChatbotNodes.sales_agent_node now_compact stores mem st).2.agent_response
          = "I need more information to create this sale:\n"
            ++ bulletLines E ++ "\nPlease provide the missing details." := by
        simp [ChatbotNodes.sales_agent_node, hi, hval]
      rw [hresp]
      exact infix_of_middle _ _ _ (infix_bulletLines he)
  · intro hi
    simp [ChatbotNodes.product_agent_node, hi]
  · intro hi
    simp [ChatbotNodes.sales_agent_node, hi]

/-- Claim C5 (witness): a create_product turn with empty entities fails
validation, leaves memory untouched, and the response carries the first
error verbatim. -/
theorem create_validation_failure_stages_nothing_witness :
    (ChatbotNodes.product_agent_node ⟨[], [], []⟩ (SessionMemory.init "t0")
        { initState (SessionMemory.init "t0") "create product" with
            intent := .str "create_product" }).1 = SessionMemory.init "t0"
    ∧ "Product ID is required".data
        <:+: (ChatbotNodes.product_agent_node ⟨[], [], []⟩ (SessionMemory.init "t0")
          { initState (SessionMemory.init "t0") "create product" with
              intent := .str "create_product" }).2.agent_response.data :=
  ⟨((create_validation_failure_stages_nothing ⟨[], [], []⟩ (SessionMemory.init "t0")
      { initState (SessionMemory.init "t0") "create product" with
          intent := .str "create_product" } "c").1 rfl (by decide)).1,
   ((create_validation_failure_stages_nothing ⟨[], [], []⟩ (SessionMemory.init "t0")
      { initState (SessionMemory.init "t0") "create product" with
          intent := .str "create_product" } "c").1 rfl (by decide)).2
     "Product ID is required" (by decide)⟩

/-! ## Claim C8: the context schema invariant -/

/-- The fixed context key schema named by the specification. -/
def context_schema : List String :=
  ["last_search_results", "last_filters", "current_topic", "last_product_id",
   "last_sale", "user_preferences", "conversation_count"]

/-- The invariant: every schema key is present in the context map. -/
def contextHasSchema (mem : SessionMemory) : Prop :=
  ∀ k ∈ context_schema, (dget mem.context k).isSome = true

/-- Claim C8: every SessionMemory operation preserves the presence of all
fixed schema keys in the context, and setting an arbitrary (also unknown)
key succeeds: the key is subsequently present with the written value. -/
theorem session_memory_preserves_schema
    (mem : SessionMemory) (role content ts key pt s2 : String) (v pv : Value) (a : Dict)
    (hinv : contextHasSchema mem) :
    contextHasSchema (mem.add_message role content ts)
    ∧ contextHasSchema (mem.update_context key v)
    ∧ dget (mem.update_context key v).context key = some v
    ∧ contextHasSchema (mem.update_user_preferences pt pv)
    ∧ contextHasSchema (mem.add_pending_action a)
    ∧ contextHasSchema (mem.clear_pending_actions)
    ∧ contextHasSchema (mem.reset s2) := by
  refine ⟨?_, ?_, ?_, ?_, ?_, ?_, ?_⟩
  · intro k hk
    exact dget_isSome_dset _ _ _ _ (hinv k hk)
  · intro k hk
    exact dget_isSome_dset _ _ _ _ (hinv k hk)
  · exact dget_dset_self _ _ _
  · intro k hk
    unfold SessionMemory.update_user_preferences
    cases hup : dget mem.context "user_preferences" with
    | none => exact hinv k hk
    | some u =>
      cases u with
      | dict d =>
        dsimp only
        by_cases hpt : hasKey d pt = true
        · rw [if_pos hpt]
          exact dget_isSome_dset _ _ _ _ (hinv k hk)
        · rw [if_neg hpt]
          exact hinv k hk
      | none => exact hinv k hk
      | bool b => exact hinv k hk
      | num q => exact hinv k hk
      | str s => exact hinv k hk
      | list l => exact hinv k hk
  · exact fun k hk => hinv k hk
  · exact fun k hk => hinv k hk
  · intro k hk
    fin_cases hk <;> rfl

/-- Claim C8 (witness). -/
theorem session_memory_preserves_schema_witness :
    contextHasSchema ((SessionMemory.init "t0").add_message "user" "hi" "t1")
    ∧ dget (((SessionMemory.init "t0").update_context "color" (.str "red")).context) "color"
        = some (.str "red") :=
  ⟨(session_memory_preserves_schema (SessionMemory.init "t0") "user" "hi" "t1" "color" "p"
      "t2" (.str "red") (.str "x") [] (by intro k hk; fin_cases hk <;> rfl)).1,
   (session_memory_preserves_schema (SessionMemory.init "t0") "user" "hi" "t1" "color" "p"
      "t2" (.str "red") (.str "x") [] (by intro k hk; fin_cases hk <;> rfl)).2.2.1⟩

/-! ## Claim C1: the executor always clears the pending stack -/

/-- Claim C1: for every pending action of one of the four write kinds
(with the dict payload every handler-staged PendingAction carries, and a
dict update delta for the update kinds), dispatching the confirmation
executor returns normally and leaves the pending-action stack empty,
whether the store call reported success or failure — a failed commit is
not retryable from the same confirmation. -/
theorem confirmation_clears_pending
    (now_iso : String) (saveOk : Bool) (stores : Stores) (mem : SessionMemory)
    (st : ConversationState) (pending data : Dict) (kind : String)
    (hp : mem.get_pending_action = some pending)
    (hk : kind ∈ ["create_product", "update_product", "create_sale", "update_sale"])
    (ha : pyGet pending "action" = .str kind)
    (hd : pyGet pending "data" = .dict data)
    (hu : kind = "update_product" ∨ kind = "update_sale" →
          ∃ u, pyGet data "updates" = .dict u) :
    (ChatbotNodes.execute_confirmation_node now_iso saveOk stores mem st).toOption.map
        (fun r => r.2.1.pending_actions) = some [] := by
  unfold ChatbotNodes.execute_confirmation_node
  rw [hp]
  fin_cases hk
  · rcases hc : ProductTools.create_product saveOk stores.products data with
      ⟨⟨success, message, errors⟩, products2⟩
    simp [ha, hd, hc, Except.toOption, SessionMemory.clear_pending_actions]
  · obtain ⟨u, hu2⟩ := hu (Or.inl rfl)
    cases saveOk <;>
      by_cases hex : stores.products.any (fun p => pyGet p "id" == pyGet data "product_id") = true <;>
        simp [ha, hd, hu2, ProductTools.update_product, hex, Except.toOption,
          SessionMemory.clear_pending_actions]
  · rcases hc : SalesTools.create_sale saveOk now_iso stores.sales data with
      ⟨⟨success, message, errors⟩, sales2⟩
    simp [ha, hd, hc, Except.toOption, SessionMemory.clear_pending_actions]
  · obtain ⟨u, hu2⟩ := hu (Or.inr rfl)
    cases saveOk <;>
      by_cases hex : stores.sales.any (fun p => pyGet p "id" == pyGet data "sale_id") = true <;>
        simp [ha, hd, hu2, SalesTools.update_sale, hex, Except.toOption,
          SessionMemory.clear_pending_actions]

/-- Claim C1 (witness): a staged create_product whose commit fails
validation still clears the stack. -/
theorem confirmation_clears_pending_witness :
    (ChatbotNodes.execute_confirmation_node "t1" true ⟨[], [], []⟩
        ((SessionMemory.init "t0").add_pending_action
          [("action", .str "create_product"), ("data", .dict [("id", .str "p1")])])
        (initState ((SessionMemory.init "t0").add_pending_action
          [("action", .str "create_product"), ("data", .dict [("id", .str "p1")])]) "yes")).toOption.map
      (fun r => r.2.1.pending_actions) = some [] :=
  confirmation_clears_pending "t1" true ⟨[], [], []⟩ _ _
    [("action", .str "create_product"), ("data", .dict [("id", .str "p1")])]
    [("id", .str "p1")] "create_product"
    (by decide) (by decide) (by decide) (by decide) (fun h => absurd h (by decide))

/-! ## Claim C6: confirming a fully valid staged create_product -/

/-- Claim C6: confirming a staged create_product whose record has a truthy
id and name, a category in the enumeration, and an id not already in the
catalog, appends exactly that one record to the catalog store when the
save succeeds and leaves the store unchanged when it fails; the other
stores are untouched and the pending stack is empty afterwards in both
cases. -/
theorem confirm_valid_create_product
    (now_iso : String) (saveOk : Bool) (stores : Stores) (mem : SessionMemory)
    (st : ConversationState) (data : Dict)
    (hp : mem.get_pending_action
        = some [("action", .str "create_product"), ("data", .dict data)])
    (hid : truthy (pyGet data "id") = true)
    (hname : truthy (pyGet data "name") = true)
    (hcat : vIn (pyGet data "category") valid_categories = true)
    (hdup : stores.products.any (fun p => pyGet p "id" == pyGet data "id") = false) :
    (ChatbotNodes.execute_confirmation_node now_iso saveOk stores mem st).toOption.map
        (fun r => (r.1.products, r.1.sales, r.1.vendors, r.2.1.pending_actions))
      = some ((if saveOk then stores.products ++ [data] else stores.products),
              stores.sales, stores.vendors, []) := by
  have hcatt : truthy (pyGet data "category") = true := by
    unfold vIn at hcat
    cases hc : pyGet data "category" with
    | str s =>
      rw [hc] at hcat
      dsimp only at hcat
      have hs : s ∈ valid_categories := by simpa [List.elem_iff] using hcat
      fin_cases hs <;> decide
    | none => rw [hc] at hcat; simp at hcat
    | bool b => rw [hc] at hcat; simp at hcat
    | num q => rw [hc] at hcat; simp at hcat
    | list l => rw [hc] at hcat; simp at hcat
    | dict d => rw [hc] at hcat; simp at hcat
  have hval : ProductTools.validate_product_data data = (true, []) := by
    unfold ProductTools.validate_product_data
    simp [hid, hname, hcatt, hcat]
  have hact : pyGet [("action", Value.str "create_product"), ("data", Value.dict data)] "action"
      = .str "create_product" := rfl
  have hdat : pyGet [("action", Value.str "create_product"), ("data", Value.dict data)] "data"
      = .dict data := rfl
  have hcp : ProductTools.create_product saveOk stores.products data
      = ((saveOk, (if saveOk then "Product created successfully" else "Failed to save"), []),
         if saveOk then stores.products ++ [data] else stores.products) := by
    unfold ProductTools.create_product
    rw [hval]
    simp only [hdup]
    cases saveOk <;> simp
  unfold ChatbotNodes.execute_confirmation_node
  rw [hp]
  simp [hact, hdat, hcp, Except.toOption, SessionMemory.clear_pending_actions]

/-- Claim C6 (witness): one fully valid staged record, committed with a
successful save, lands as the single catalog record with the stack
cleared. -/
theorem confirm_valid_create_product_witness :
    (ChatbotNodes.execute_confirmation_node "t1" true ⟨[], [], []⟩
        ((SessionMemory.init "t0").add_pending_action
          [("action", .str "create_product"),
           ("data", .dict [("id", .str "p9"), ("name", .str "Widget"), ("category", .str "Home")])])
        (initState ((SessionMemory.init "t0").add_pending_action
          [("action", .str "create_product"),
           ("data", .dict [("id", .str "p9"), ("name", .str "Widget"), ("category", .str "Home")])]) "yes")).toOption.map
      (fun r => (r.1.products, r.1.sales, r.1.vendors, r.2.1.pending_actions))
      = some ((if true then [] ++ [[("id", Value.str "p9"), ("name", Value.str "Widget"), ("category", Value.str "Home")]] else []),
              [], [], []) :=
  confirm_valid_create_product "t1" true ⟨[], [], []⟩ _ _
    [("id", .str "p9"), ("name", .str "Widget"), ("category", .str "Home")]
    (by decide) (by decide) (by decide) (by decide) (by decide)

/-! ## Claim C2: a confirmation token with nothing pending -/

/-- Claim C2 (counterexample): the turn "yes" with no pending action is not
answered with the fixed "nothing pending" message: the confirm
short-circuit does not fire, classification falls through (here to the
keyword fallback and the general-chat path), and the reply is the general
assistant reply. -/
theorem confirm_without_pending_counterexample :
    lowerContainsAny "yes" confirm_words = true
    ∧ (SessionMemory.init "t0").pending_actions = []
    ∧ (match run_turn Option.none Option.none ⟨"t1", "c1"⟩ true ⟨[], [], []⟩
          (SessionMemory.init "t0") "yes" with
       | .ok r => r.state.agent_response
       | .error e => e)
      = "I\x27m here to help! You can ask me to search for products, check sales, get analytics, or manage vendors. What would you like to do?"
    ∧ ("I\x27m here to help! You can ask me to search for products, check sales, get analytics, or manage vendors. What would you like to do?" : String)
      ≠ "There\x27s nothing pending to confirm. How else can I help you?" := by
  decide

/-- Claim C2 (amended): for every turn whose text contains a confirmation
token while no pending action exists, the turn runs to completion and
performs no store mutation; but the response is not in general the fixed
"nothing pending" message — the turn is not short-circuited to the
confirmation path and is classified normally, and the executor's fixed
message arises only when classification nonetheless resolves to
confirm_action. -/
theorem confirm_without_pending_no_store_mutation
    (ext : Option Dict) (gen : Option String) (clock : Clock) (saveOk : Bool)
    (stores : Stores) (mem : SessionMemory) (user_input : String)
    (hp : mem.pending_actions = [])
    (_hc : lowerContainsAny user_input confirm_words = true) :
    ∃ r, run_turn ext gen clock saveOk stores mem user_input = .ok r ∧ r.stores = stores := by
  have hpn : mem.get_pending_action = Option.none := by
    unfold SessionMemory.get_pending_action
    rw [hp]
    rfl
  have hex : ∀ stx : ConversationState,
      ChatbotNodes.execute_confirmation_node clock.iso saveOk stores mem stx
        = .ok (stores, mem,
            { stx with agent_response := "There\x27s nothing pending to confirm. How else can I help you?" }) := by
    intro stx
    unfold ChatbotNodes.execute_confirmation_node
    rw [hpn]
  unfold run_turn
  simp only [hex]
  repeat' split
  all_goals exact ⟨_, rfl, rfl⟩

/-- Claim C2 (witness). -/
theorem confirm_without_pending_no_store_mutation_witness :
    ∃ r, run_turn Option.none Option.none ⟨"t1", "c1"⟩ true ⟨[], [], []⟩
        (SessionMemory.init "t0") "yes" = .ok r ∧ r.stores = ⟨[], [], []⟩ :=
  confirm_without_pending_no_store_mutation Option.none Option.none ⟨"t1", "c1"⟩ true
    ⟨[], [], []⟩ (SessionMemory.init "t0") "yes" rfl (by decide)

/-! ## Claim C7: cancellation -/

/-- Claim C7: whenever a turn routes to the cancellation handler, the turn
never fails, every data store is left unmodified, the pending-action stack
is emptied, and the response is the fixed acknowledgment. -/
theorem cancellation_clears_and_preserves
    (ext : Option Dict) (gen : Option String) (clock : Clock) (saveOk : Bool)
    (stores : Stores) (mem : SessionMemory) (text : String)
    (hr : ChatbotNodes.route_to_agent (ChatbotNodes.validate_input
        (ChatbotNodes.understand_input ext mem (initState mem text)).1) = "handle_cancellation") :
    run_turn ext gen clock saveOk stores mem text
      = .ok ⟨stores, mem.clear_pending_actions,
             { ChatbotNodes.validate_input
                 (ChatbotNodes.understand_input ext mem (initState mem text)).1 with
                 agent_response := "No problem! I\x27ve cancelled that action. What else can I help you with?" },
             (ChatbotNodes.understand_input ext mem (initState mem text)).2⟩ := by
  unfold run_turn
  simp [hr, ChatbotNodes.handle_cancellation_node]

/-- Claim C7 (witness): the turn "cancel" with a staged pending action. -/
theorem cancellation_clears_and_preserves_witness :
    run_turn Option.none Option.none ⟨"t1", "c1"⟩ true ⟨[], [], []⟩
        ((SessionMemory.init "t0").add_pending_action
          [("action", .str "create_sale"), ("data", .dict [])]) "cancel"
      = .ok ⟨⟨[], [], []⟩,
             ((SessionMemory.init "t0").add_pending_action
               [("action", .str "create_sale"), ("data", .dict [])]).clear_pending_actions,
             { ChatbotNodes.validate_input
                 (ChatbotNodes.understand_input Option.none
                   ((SessionMemory.init "t0").add_pending_action
                     [("action", .str "create_sale"), ("data", .dict [])])
                   (initState ((SessionMemory.init "t0").add_pending_action
                     [("action", .str "create_sale"), ("data", .dict [])]) "cancel")).1 with
                 agent_response := "No problem! I\x27ve cancelled that action. What else can I help you with?" },
             (ChatbotNodes.understand_input Option.none
               ((SessionMemory.init "t0").add_pending_action
                 [("action", .str "create_sale"), ("data", .dict [])])
               (initState ((SessionMemory.init "t0").add_pending_action
                 [("action", .str "create_sale"), ("data", .dict [])]) "cancel")).2⟩ :=
  cancellation_clears_and_preserves Option.none Option.none ⟨"t1", "c1"⟩ true ⟨[], [], []⟩
    ((SessionMemory.init "t0").add_pending_action
      [("action", .str "create_sale"), ("data", .dict [])]) "cancel" (by decide)

/-! ## Claim C10: the negation substring short-circuit -/

/-- Claim C10: for every turn whose lowercased text contains "no",
"cancel" or "abort" anywhere (also inside a longer word such as
"notebook") and which is not confirm-short-circuited (no confirmation
token together with a pending action), the intent is set to cancel_action
without consulting the external classifier, and the turn ends with the
pending stack cleared — also when nothing was pending. -/
theorem negation_shortcircuits_to_cancel
    (ext : Option Dict) (gen : Option String) (clock : Clock) (saveOk : Bool)
    (stores : Stores) (mem : SessionMemory) (text : String)
    (hn : lowerContainsAny text negation_words = true)
    (hnc : lowerContainsAny text confirm_words = true → mem.get_pending_action = Option.none) :
    ChatbotNodes.understand_input ext mem (initState mem text)
      = ({ initState mem text with intent := .str "cancel_action" }, false)
    ∧ ∃ st2, run_turn ext gen clock saveOk stores mem text
        = .ok ⟨stores, mem.clear_pending_actions, st2, false⟩ := by
  have hu : ChatbotNodes.understand_input ext mem (initState mem text)
      = ({ initState mem text with intent := .str "cancel_action" }, false) := by
    unfold ChatbotNodes.understand_input
    by_cases hcw : lowerContainsAny text confirm_words = true
    · simp [initState, hcw, hnc hcw, hn]
    · simp [initState, hcw, hn]
  have hroute : ChatbotNodes.route_to_agent (ChatbotNodes.validate_input
      { initState mem text with intent := .str "cancel_action" }) = "handle_cancellation" := rfl
  refine ⟨hu, ?_⟩
  unfold run_turn
  simp [hu, hroute, ChatbotNodes.handle_cancellation_node]

/-- Claim C10 (witness): "notebook" contains the substring "no" (and even
the confirmation substring "ok", but nothing is pending), so the turn is
classified cancel_action locally and clears the already empty stack. -/
theorem negation_shortcircuits_to_cancel_witness :
    ChatbotNodes.understand_input Option.none (SessionMemory.init "t0")
        (initState (SessionMemory.init "t0") "notebook")
      = ({ initState (SessionMemory.init "t0") "notebook" with intent := .str "cancel_action" }, false)
    ∧ ∃ st2, run_turn Option.none Option.none ⟨"t1", "c1"⟩ true ⟨[], [], []⟩
        (SessionMemory.init "t0") "notebook"
        = .ok ⟨⟨[], [], []⟩, (SessionMemory.init "t0").clear_pending_actions, st2, false⟩ :=
  negation_shortcircuits_to_cancel Option.none Option.none ⟨"t1", "c1"⟩ true ⟨[], [], []⟩
    (SessionMemory.init "t0") "notebook" (by decide) (fun _ => by decide)
